import Mathlib

/-!
Verification of the X3 lossless-audio decoder core (`src/crc.rs`,
`src/decodefile.rs`) against its natural-language specification.

Bytes are modelled as `Nat`s below 256; `u16` arithmetic is performed
explicitly modulo `65536`.  Stateful Rust methods on `X3aReader` become
functions from a reader state to a `(result, new state)` pair.  Code of
the repository that is not part of the two source files above
(`decoder.rs`, `x3.rs`, `error.rs`, the XML tokenizer and the Rust
standard library) is modelled from the specification; every such
definition carries a doc comment saying so.
-/

set_option maxRecDepth 8192

namespace X3

/-- The 256-entry CRC lookup table, transcribed from `CRC_TABLE` in `src/crc.rs`. -/
def CRC_TABLE : List Nat := [
  0x0000, 0x1021, 0x2042, 0x3063, 0x4084, 0x50a5, 0x60c6, 0x70e7, 0x8108, 0x9129, 0xa14a, 0xb16b, 0xc18c, 0xd1ad,
  0xe1ce, 0xf1ef, 0x1231, 0x0210, 0x3273, 0x2252, 0x52b5, 0x4294, 0x72f7, 0x62d6, 0x9339, 0x8318, 0xb37b, 0xa35a,
  0xd3bd, 0xc39c, 0xf3ff, 0xe3de, 0x2462, 0x3443, 0x0420, 0x1401, 0x64e6, 0x74c7, 0x44a4, 0x5485, 0xa56a, 0xb54b,
  0x8528, 0x9509, 0xe5ee, 0xf5cf, 0xc5ac, 0xd58d, 0x3653, 0x2672, 0x1611, 0x0630, 0x76d7, 0x66f6, 0x5695, 0x46b4,
  0xb75b, 0xa77a, 0x9719, 0x8738, 0xf7df, 0xe7fe, 0xd79d, 0xc7bc, 0x48c4, 0x58e5, 0x6886, 0x78a7, 0x0840, 0x1861,
  0x2802, 0x3823, 0xc9cc, 0xd9ed, 0xe98e, 0xf9af, 0x8948, 0x9969, 0xa90a, 0xb92b, 0x5af5, 0x4ad4, 0x7ab7, 0x6a96,
  0x1a71, 0x0a50, 0x3a33, 0x2a12, 0xdbfd, 0xcbdc, 0xfbbf, 0xeb9e, 0x9b79, 0x8b58, 0xbb3b, 0xab1a, 0x6ca6, 0x7c87,
  0x4ce4, 0x5cc5, 0x2c22, 0x3c03, 0x0c60, 0x1c41, 0xedae, 0xfd8f, 0xcdec, 0xddcd, 0xad2a, 0xbd0b, 0x8d68, 0x9d49,
  0x7e97, 0x6eb6, 0x5ed5, 0x4ef4, 0x3e13, 0x2e32, 0x1e51, 0x0e70, 0xff9f, 0xefbe, 0xdfdd, 0xcffc, 0xbf1b, 0xaf3a,
  0x9f59, 0x8f78, 0x9188, 0x81a9, 0xb1ca, 0xa1eb, 0xd10c, 0xc12d, 0xf14e, 0xe16f, 0x1080, 0x00a1, 0x30c2, 0x20e3,
  0x5004, 0x4025, 0x7046, 0x6067, 0x83b9, 0x9398, 0xa3fb, 0xb3da, 0xc33d, 0xd31c, 0xe37f, 0xf35e, 0x02b1, 0x1290,
  0x22f3, 0x32d2, 0x4235, 0x5214, 0x6277, 0x7256, 0xb5ea, 0xa5cb, 0x95a8, 0x8589, 0xf56e, 0xe54f, 0xd52c, 0xc50d,
  0x34e2, 0x24c3, 0x14a0, 0x0481, 0x7466, 0x6447, 0x5424, 0x4405, 0xa7db, 0xb7fa, 0x8799, 0x97b8, 0xe75f, 0xf77e,
  0xc71d, 0xd73c, 0x26d3, 0x36f2, 0x0691, 0x16b0, 0x6657, 0x7676, 0x4615, 0x5634, 0xd94c, 0xc96d, 0xf90e, 0xe92f,
  0x99c8, 0x89e9, 0xb98a, 0xa9ab, 0x5844, 0x4865, 0x7806, 0x6827, 0x18c0, 0x08e1, 0x3882, 0x28a3, 0xcb7d, 0xdb5c,
  0xeb3f, 0xfb1e, 0x8bf9, 0x9bd8, 0xabbb, 0xbb9a, 0x4a75, 0x5a54, 0x6a37, 0x7a16, 0x0af1, 0x1ad0, 0x2ab3, 0x3a92,
  0xfd2e, 0xed0f, 0xdd6c, 0xcd4d, 0xbdaa, 0xad8b, 0x9de8, 0x8dc9, 0x7c26, 0x6c07, 0x5c64, 0x4c45, 0x3ca2, 0x2c83,
  0x1ce0, 0x0cc1, 0xef1f, 0xff3e, 0xcf5d, 0xdf7c, 0xaf9b, 0xbfba, 0x8fd9, 0x9ff8, 0x6e17, 0x7e36, 0x4e55, 0x5e74,
  0x2e93, 0x3eb2, 0x0ed1, 0x1ef0]

/-- CRC-16 of a byte sequence, embedding `crc16` from `src/crc.rs`:
start from `0xffff`; for each byte `d`, look up `d XOR (crc >> 8)` in the
table and set `crc := (crc << 8) XOR TABLE[lookup]` in `u16` arithmetic. -/
def crc16 (data : List Nat) : Nat :=
  data.foldl
    (fun crc d =>
      let lookup := (d % 256) ^^^ ((crc >>> 8) % 256)
      ((crc <<< 8) % 65536) ^^^ CRC_TABLE.getD lookup 0)
    0xffff

/-- One step of MSB-first polynomial division on a `u16` register with the
CCITT polynomial `0x1021`: shift left, and when the bit shifted out was set,
fold the polynomial back in. -/
def crcShift (x : Nat) : Nat :=
  if x.testBit 15 then ((x <<< 1) ^^^ 0x1021) % 65536 else (x <<< 1) % 65536

/-- The entry of the CCITT table for index `i`, derived from the polynomial
`0x1021` by running eight division steps on `i << 8`. -/
def crcTableEntry (i : Nat) : Nat := crcShift^[8] ((i % 256) <<< 8)

/-- The CRC table as the specification describes it: the 256 entries derived
from polynomial `0x1021`. -/
def CRC_TABLE_derived : List Nat := (List.range 256).map crcTableEntry

/-- CRC-16 as the specification states it: initial value `0xffff`, and for
each input byte `d`, `index = d XOR (crc >> 8)`; `crc = (crc << 8) XOR
TABLE[index]`, with the table derived from the polynomial. -/
def crc16_spec (data : List Nat) : Nat :=
  data.foldl
    (fun crc d =>
      let lookup := (d % 256) ^^^ ((crc >>> 8) % 256)
      ((crc <<< 8) % 65536) ^^^ CRC_TABLE_derived.getD lookup 0)
    0xffff

/-- Errors of the decoder.  The constructors that appear in
`src/decodefile.rs` keep their source names; the remaining ones are
modelled from the specification's error taxonomy (§7), because
`decoder.rs` and `error.rs` are not among the source files. -/
inductive X3Error where
  | ArchiveHeaderXMLInvalidKey
  | ArchiveHeaderXMLInvalid
  | ArchiveHeaderXMLRiceCode
  | FrameHeaderBadMagic
  | FrameHeaderInvalidHeaderCRC
  | FrameHeaderInvalidPayloadCRC
  | FrameHeaderInvalidPayloadLen
  | EndOfStream
  | IoError
  deriving DecidableEq

/-- Outcome of a Rust computation that may also panic (index out of
bounds, `unwrap` on `None`), which `Result` alone does not capture. -/
inductive PResult (α : Type) where
  | ok (a : α)
  | err (e : X3Error)
  | panic
  deriving DecidableEq

/-- Modelled from the spec: Rust's standard `str::split(',')`, used by
`parse_xml` on the `CODES` and `T` texts; splitting the empty string
yields one empty piece. -/
def splitOnComma : List Char → List (List Char)
  | [] => [[]]
  | c :: cs =>
    let r := splitOnComma cs
    if c = ',' then [] :: r else (c :: r.headD []) :: r.tail

/-- Modelled from the spec: Rust's standard `str::parse` for an unsigned
integer type: the string must be nonempty and all decimal digits. -/
def parseNat? (s : List Char) : Option Nat :=
  if s = [] then none
  else
    match s.mapM (fun (c : Char) =>
        if c.isDigit then some (c.toNat - 48) else (none : Option Nat)) with
    | none => none
    | some ds => some (ds.foldl (fun a d => a * 10 + d) 0)

/-- Modelled from the spec: the frame-header record produced by
`decoder::read_frame_header` (§4.D), carrying the stored payload CRC; the
time fields are opaque to the decoder and omitted. -/
structure FrameHeader where
  channels : Nat
  payload_len : Nat
  samples : Nat
  payload_crc : Nat
  deriving DecidableEq

/-- Modelled from the spec: `x3::FrameHeader::LENGTH`, the fixed 20-byte
frame-header size (§3). -/
def FrameHeader.LENGTH : Nat := 20

/-- Modelled from the spec: the per-archive codec parameters (§3). -/
structure Parameters where
  block_len : Nat
  blocks_per_frame : Nat
  rice_codes : List Nat
  thresholds : List Nat
  deriving DecidableEq

/-- Modelled from the spec: `x3::Parameters::DEFAULT_BLOCKS_PER_FRAME`
(§3 gives `blocks_per_frame` e.g. 500). -/
def Parameters.DEFAULT_BLOCKS_PER_FRAME : Nat := 500

/-- Whether a list of naturals is strictly increasing. -/
def strictlyIncreasing : List Nat → Bool
  | [] => true
  | [_] => true
  | a :: b :: rest => a < b && strictlyIncreasing (b :: rest)

/-- Modelled from the spec: `x3::Parameters::new`, which validates its
inputs (§4.C.5: `block_len > 0`, thresholds strictly increasing). -/
def Parameters.new (block_len blocks_per_frame : Nat)
    (rice_codes thresholds : List Nat) : Except X3Error Parameters :=
  if block_len = 0 then .error .ArchiveHeaderXMLInvalid
  else if strictlyIncreasing thresholds then
    .ok ⟨block_len, blocks_per_frame, rice_codes, thresholds⟩
  else .error .ArchiveHeaderXMLInvalid

/-- Modelled from the spec: `x3::X3aSpec`, the archive spec record (§3). -/
structure X3aSpec where
  sample_rate : Nat
  params : Parameters
  channels : Nat
  deriving DecidableEq

/-- Modelled from the spec: `x3::Archive::ID`, the literal ASCII archive
magic marker (§4.C.1), the bytes of `"X3ARCHIVE"`. -/
def Archive.ID : List Nat := [0x58, 0x33, 0x41, 0x52, 0x43, 0x48, 0x49, 0x56, 0x45]

/-- Big-endian 16-bit integer from two bytes. -/
def be16 (hi lo : Nat) : Nat := (hi % 256) * 256 + (lo % 256)

/-- Modelled from the spec: `decoder::read_frame_header` (§4.D): check the
`"x3"` magic, extract the big-endian fields, check the CRC of bytes 0..16
against bytes 16..18, and return the header carrying the stored payload
CRC (bytes 18..20). -/
def decoder.read_frame_header (buf : List Nat) : Except X3Error FrameHeader :=
  if buf.take 2 ≠ [0x78, 0x33] then .error .FrameHeaderBadMagic
  else if crc16 (buf.take 16) ≠ be16 (buf.getD 16 0) (buf.getD 17 0) then
    .error .FrameHeaderInvalidHeaderCRC
  else
    .ok ⟨be16 (buf.getD 2 0) (buf.getD 3 0),
         be16 (buf.getD 4 0) (buf.getD 5 0),
         be16 (buf.getD 6 0) (buf.getD 7 0),
         be16 (buf.getD 18 0) (buf.getD 19 0)⟩

/-- Modelled from the spec: `decoder::decode_frame` is not among the
source files; §8 states that for well-formed frames with valid CRCs it
returns exactly the announced number of samples, so this model returns
that count.  It stands in for the real decoder wherever a closed theorem
needs a concrete frame-level decoder. -/
def decoder.decode_frame_spec (_payload : List Nat) (_params : Parameters)
    (samples : Nat) : Except X3Error (Option Nat) := .ok (some samples)

/-- `X3_READ_BUFFER_SIZE` from `src/decodefile.rs`. -/
def X3_READ_BUFFER_SIZE : Nat := 1024 * 24

/-- `X3_WRITE_BUFFER_SIZE` from `src/decodefile.rs`. -/
def X3_WRITE_BUFFER_SIZE : Nat := X3_READ_BUFFER_SIZE * 8

/-- The state of `X3aReader` (`src/decodefile.rs`): the unconsumed bytes
of the file stand in for the buffered file reader; the other fields match
the struct.  Methods taking `&mut self` become functions returning a
`(result, new state)` pair. -/
structure X3aReader where
  stream : List Nat
  spec : X3aSpec
  remaing_bytes : Nat
  read_buf : List Nat
  frame_errors : Nat
  deriving DecidableEq

/-- `X3aReader::read_bytes`: clamp the requested length to the remaining
byte count, debit it, and fill the front of the read buffer from the
stream (`read_exact`); fewer bytes available than requested is an I/O
error.  The underrun check is phrased over `take n` so that it inspects
only the first `n` stream elements; it is equivalent to
`st.stream.length < n`. -/
def X3aReader.read_bytes (st : X3aReader) (buf_len : Nat) :
    Except X3Error Unit × X3aReader :=
  let n := min buf_len st.remaing_bytes
  if (st.stream.take n).length < n then
    (.error .IoError, { st with remaing_bytes := st.remaing_bytes - n })
  else
    (.ok (), { st with
      remaing_bytes := st.remaing_bytes - n
      stream := st.stream.drop n
      read_buf := st.stream.take n ++ st.read_buf.drop n })

/-- `X3aReader::read_frame_header`: read 20 bytes and parse them. -/
def X3aReader.read_frame_header (st : X3aReader) :
    Except X3Error FrameHeader × X3aReader :=
  match st.read_bytes FrameHeader.LENGTH with
  | (.error e, st') => (.error e, st')
  | (.ok _, st') =>
    (decoder.read_frame_header (st'.read_buf.take FrameHeader.LENGTH), st')

/-- `X3aReader::read_frame_payload`: read `payload_len` bytes, compute
their CRC-16 and compare it with the header's stored payload CRC. -/
def X3aReader.read_frame_payload (st : X3aReader) (header : FrameHeader) :
    Except X3Error Unit × X3aReader :=
  match st.read_bytes header.payload_len with
  | (.error e, st') => (.error e, st')
  | (.ok _, st') =>
    if crc16 (st'.read_buf.take header.payload_len) ≠ header.payload_crc then
      (.error .FrameHeaderInvalidPayloadCRC, st')
    else (.ok (), st')

/-- `X3aReader::decode_next_frame`.  The argument `decodeFrame` stands for
`decoder::decode_frame`, which is not among the source files; the real
function also writes the decoded samples into the caller's wav buffer,
which the model records only through the returned sample count. -/
def X3aReader.decode_next_frame
    (decodeFrame : List Nat → Parameters → Nat → Except X3Error (Option Nat))
    (st : X3aReader) : Except X3Error (Option Nat) × X3aReader :=
  if st.remaing_bytes ≤ FrameHeader.LENGTH then (.ok none, st)
  else
    match st.read_frame_header with
    | (.error e, st1) => (.error e, st1)
    | (.ok frame_header, st1) =>
      if st1.remaing_bytes < frame_header.payload_len then (.ok none, st1)
      else if frame_header.payload_len > X3_READ_BUFFER_SIZE then
        (.error .FrameHeaderInvalidPayloadLen, st1)
      else
        match st1.read_frame_payload frame_header with
        | (.error e, st2) => (.error e, st2)
        | (.ok _, st2) =>
          match decodeFrame (st2.read_buf.take frame_header.payload_len)
              st2.spec.params frame_header.samples with
          | .ok result => (.ok result, st2)
          | .error _ =>
            (.ok none, { st2 with frame_errors := st2.frame_errors + 1 })

/-- The decode loop of `x3a_to_wav`: call `decode_next_frame` until it
yields `Ok(None)` (clean stop) or an error (propagated by `?`),
accumulating the number of samples handed to the WAV writer.  `fuel`
bounds the iteration count; the theorems below always supply enough fuel
for the stream at hand. -/
def x3a_to_wav_loop
    (decodeFrame : List Nat → Parameters → Nat → Except X3Error (Option Nat)) :
    Nat → X3aReader → Nat → Except X3Error Unit × Nat × X3aReader
  | 0, st, total => (.ok (), total, st)
  | fuel + 1, st, total =>
    match st.decode_next_frame decodeFrame with
    | (.error e, st') => (.error e, total, st')
    | (.ok none, st') => (.ok (), total, st')
    | (.ok (some samples), st') =>
      x3a_to_wav_loop decodeFrame fuel st' (total + samples)

/-- The `CODES` token loop of `parse_xml` (`src/decodefile.rs`): `RICEk`
contributes `k`, `BFP` is skipped, anything else is an error. -/
def riceCodeIds : List (List Char) → Except X3Error (List Nat)
  | [] => .ok []
  | w :: ws =>
    if w = ['R', 'I', 'C', 'E', '0'] then (riceCodeIds ws).map (0 :: ·)
    else if w = ['R', 'I', 'C', 'E', '1'] then (riceCodeIds ws).map (1 :: ·)
    else if w = ['R', 'I', 'C', 'E', '2'] then (riceCodeIds ws).map (2 :: ·)
    else if w = ['R', 'I', 'C', 'E', '3'] then (riceCodeIds ws).map (3 :: ·)
    else if w = ['B', 'F', 'P'] then riceCodeIds ws
    else .error .ArchiveHeaderXMLRiceCode

/-- `parse_xml` (`src/decodefile.rs`) over the element-name/text events
yielded by the XML tokenizer, which the specification treats as a black
box (§1).  Indexing an empty `Vec` and `unwrap` of a failed parse are
panics; an unknown `CODES` token is an error. -/
def parse_xml (events : List (List Char × List Char)) :
    PResult (Nat × Parameters) :=
  let fs := (events.filter fun e => e.1 = ['F', 'S']).map Prod.snd
  let bl := (events.filter fun e => e.1 = ['B', 'L', 'K', 'L', 'E', 'N']).map Prod.snd
  let codes := (events.filter fun e => e.1 = ['C', 'O', 'D', 'E', 'S']).map Prod.snd
  let th := (events.filter fun e => e.1 = ['T']).map Prod.snd
  match fs, bl, codes, th with
  | f0 :: _, b0 :: _, c0 :: _, t0 :: _ =>
    (match parseNat? f0, parseNat? b0 with
     | some sample_rate, some block_len =>
       (match riceCodeIds (splitOnComma c0) with
        | .error e => .err e
        | .ok rice_code_ids =>
          (match (splitOnComma t0).mapM parseNat? with
           | none => .panic
           | some thresholds =>
             match rice_code_ids, thresholds with
             | r0 :: r1 :: r2 :: _, u0 :: u1 :: u2 :: _ =>
               (match Parameters.new block_len
                   Parameters.DEFAULT_BLOCKS_PER_FRAME [r0, r1, r2]
                   [u0, u1, u2] with
                | .error e => .err e
                | .ok params => .ok (sample_rate, params))
             | _, _ => .panic))
     | _, _ => .panic)
  | _, _, _, _ => .panic

/-- `read_archive_header` (`src/decodefile.rs`): check the archive magic,
read the first frame header, read its payload and parse it as XML.  The
argument `parseXml` stands for the composition of
`String::from_utf8_lossy`, the black-box XML tokenizer and `parse_xml`
applied to the payload bytes; `parse_xml` itself is modelled separately
over tokenizer events. -/
def read_archive_header (parseXml : List Nat → PResult (Nat × Parameters))
    (stream : List Nat) : PResult (X3aSpec × Nat) :=
  if stream.length < Archive.ID.length then .err .IoError
  else if stream.take Archive.ID.length ≠ Archive.ID then
    .err .ArchiveHeaderXMLInvalidKey
  else
    let s1 := stream.drop Archive.ID.length
    if s1.length < FrameHeader.LENGTH then .err .IoError
    else
      match decoder.read_frame_header (s1.take FrameHeader.LENGTH) with
      | .error e => .err e
      | .ok header =>
        let s2 := s1.drop FrameHeader.LENGTH
        if s2.length < header.payload_len then .err .IoError
        else
          match parseXml (s2.take header.payload_len) with
          | .panic => .panic
          | .err e => .err e
          | .ok (sample_rate, params) =>
            .ok (⟨sample_rate, params, header.channels⟩,
                 FrameHeader.LENGTH + header.payload_len)

/-- Modelled from the spec: the Rice sign mapping of the block decoder
(§4.E): magnitude `0` decodes to `0`; otherwise the least-significant bit
gives the sign (`1` = negative) and the magnitude is `(m + 1) >> 1`. -/
def riceSignMap (m : Nat) : Int :=
  if m = 0 then 0
  else if m % 2 = 1 then -(((m + 1) / 2 : Nat) : Int)
  else (((m + 1) / 2 : Nat) : Int)

/-- The inverse of the Rice sign mapping, used to state its bijectivity. -/
def riceSignInv (v : Int) : Nat :=
  if v < 0 then (2 * (-v) - 1).toNat else (2 * v).toNat

/-- The 16 header bytes of the CRC test vector in `src/crc.rs`. -/
def crcHeaderVector : List Nat :=
  [0x78, 0x33, 0x01, 0x01, 0x27, 0x10, 0x19, 0xd0,
   0x00, 0x00, 0x00, 0x00, 0x00, 0x00, 0x00, 0x00]

/-- The fixed 150-byte payload of the CRC test vector in `src/crc.rs`. -/
def crcPayloadVector : List Nat :=
  [0xf2, 0x2b, 0xf4, 0x86, 0xb0, 0xe1, 0x6e, 0xca, 0x9a, 0x35, 0x29, 0xa7, 0x51, 0xcd, 0xee, 0xd5, 0xc9, 0x30, 0x94,
   0x21, 0x38, 0xda, 0x56, 0x97, 0x84, 0x44, 0x93, 0xd9, 0x44, 0x60, 0xb4, 0x9c, 0x57, 0x34, 0xd2, 0x1d, 0x2b, 0x69,
   0x11, 0xe9, 0xd6, 0x9a, 0x46, 0xc4, 0x2d, 0xc2, 0x3e, 0x26, 0x25, 0x42, 0xd8, 0xcd, 0xd2, 0xfb, 0x66, 0x6a, 0xe7,
   0x7b, 0xa0, 0x57, 0x8b, 0x20, 0x42, 0xd2, 0x67, 0xf6, 0x67, 0xfa, 0xe5, 0x5a, 0xd6, 0x19, 0x17, 0x19, 0x79, 0xf5,
   0xfc, 0xdb, 0x38, 0xb3, 0x9b, 0x86, 0x5f, 0xcd, 0x2f, 0xa5, 0xf5, 0x3a, 0xcc, 0x62, 0x6e, 0xa3, 0x93, 0xeb, 0x43,
   0xb6, 0x29, 0xaa, 0x62, 0xc5, 0x07, 0xa0, 0xfd, 0x13, 0xdd, 0x40, 0x24, 0x2f, 0x49, 0xc4, 0x85, 0xfa, 0xcf, 0xd2,
   0x83, 0x14, 0x2d, 0x3a, 0x33, 0x0e, 0x4e, 0xf8, 0x11, 0x7a, 0xfc, 0x80, 0x3e, 0xf4, 0x6e, 0x2b, 0x48, 0x63, 0x80,
   0x36, 0xfd, 0x09, 0xec, 0x09, 0x2f, 0x58, 0x36, 0x08, 0x34, 0x0f, 0xb8, 0x1f, 0x60, 0x3f, 0x17, 0xc5]

/-- Bytes of a frame for the concrete scenarios: the 16-byte header
prefix with the announced payload length and sample count, the header
CRC over it, the payload CRC of `crcPayload`, then `payload`.  Passing a
`payload` different from `crcPayload` produces a frame whose written
payload does not match its stored payload CRC. -/
def mkFrame (channels samples : Nat) (crcPayload payload : List Nat) :
    List Nat :=
  let pre := [0x78, 0x33, channels / 256, channels % 256,
              crcPayload.length / 256, crcPayload.length % 256,
              samples / 256, samples % 256, 0, 0, 0, 0, 0, 0, 0, 0]
  pre ++ [crc16 pre / 256, crc16 pre % 256,
          crc16 crcPayload / 256, crc16 crcPayload % 256] ++ payload

/-- The parameters of the concrete XML scenario (§8, scenario 6). -/
def testParams : Parameters := ⟨20, 500, [0, 1, 2], [3, 8, 20]⟩

/-- An archive spec for the concrete reader states. -/
def testSpec : X3aSpec := ⟨48000, testParams, 1⟩

/-- A freshly opened reader positioned at the first frame of `stream`. -/
def mkReader (stream : List Nat) : X3aReader :=
  ⟨stream, testSpec, stream.length, List.replicate X3_READ_BUFFER_SIZE 0, 0⟩

/-- The intact 4-byte frame payload of the bit-flip scenario. -/
def goodPayload : List Nat := [1, 2, 3, 4]

/-- `goodPayload` with one bit flipped in its last byte. -/
def badPayload : List Nat := [1, 2, 3, 5]

/-- A well-formed 24-byte frame announcing 10 samples. -/
def goodFrame : List Nat := mkFrame 1 10 goodPayload goodPayload

/-- The same frame with one bit flipped in its payload, so the payload no
longer matches the stored payload CRC. -/
def badFrame : List Nat := mkFrame 1 10 goodPayload badPayload

/-- The 5-frame archive body of §8 scenario 5: one bit flipped in frame
2's payload. -/
def flippedArchive : List Nat :=
  goodFrame ++ badFrame ++ goodFrame ++ goodFrame ++ goodFrame

/-- The reader state opened on `flippedArchive`. -/
def flippedReader : X3aReader := mkReader flippedArchive

/-- A 20-byte frame header announcing `payloadLen` payload bytes and
`samples` samples, with a valid header CRC and stored payload CRC 0. -/
def mkHeaderOnly (payloadLen samples : Nat) : List Nat :=
  let pre := [0x78, 0x33, 0, 1, payloadLen / 256, payloadLen % 256,
              samples / 256, samples % 256, 0, 0, 0, 0, 0, 0, 0, 0]
  pre ++ [crc16 pre / 256, crc16 pre % 256, 0, 0]

/-- A reader whose next frame announces a 24832-byte payload (more than
the 24 KiB read buffer) while only 10 bytes follow the header. -/
def oversizeReader : X3aReader :=
  mkReader (mkHeaderOnly 24832 10 ++ List.replicate 10 0)

/-- A reader whose next frame announces a 24832-byte payload and whose
stream still holds that many bytes after the header; its remaining-byte
count `20 + 24832` is written as a literal rather than as
`stream.length` only to keep kernel evaluation shallow. -/
def oversizeFullReader : X3aReader :=
  ⟨mkHeaderOnly 24832 10 ++ List.replicate 24832 0, testSpec, 24852,
   List.replicate X3_READ_BUFFER_SIZE 0, 0⟩

/-- A frame-level decoder that fails on every frame, standing in for
`decoder::decode_frame` hitting a decode error on a CRC-valid payload. -/
def failingDecoder : List Nat → Parameters → Nat → Except X3Error (Option Nat) :=
  fun _ _ _ => .error .EndOfStream

/-- The reader state opened on one well-formed frame. -/
def goodReader : X3aReader := mkReader goodFrame

/-- The parsed header of `goodFrame`. -/
def goodHeader : FrameHeader := ⟨1, 4, 10, crc16 goodPayload⟩

/-- A reader with at most a frame header's worth of bytes remaining. -/
def shortReader : X3aReader := mkReader goodPayload

/-- The Rice id of a single `CODES` token as the claim words it: `RICEk`
contributes `k`, anything else contributes nothing. -/
def riceTok? (w : List Char) : Option Nat :=
  if w = ['R', 'I', 'C', 'E', '0'] then some 0
  else if w = ['R', 'I', 'C', 'E', '1'] then some 1
  else if w = ['R', 'I', 'C', 'E', '2'] then some 2
  else if w = ['R', 'I', 'C', 'E', '3'] then some 3
  else none

/-- The Rice ids the claim says a `CODES` text retains: the Rice tokens
in order with `BFP` skipped, the first three kept. -/
def retainedRice (c : List Char) : List Nat :=
  ((splitOnComma c).filterMap riceTok?).take 3

/-- The texts of the events named `n`, in document order. -/
def eventTexts (events : List (List Char × List Char)) (n : List Char) :
    List (List Char) :=
  (events.filter fun e => e.1 = n).map Prod.snd

/-- The tokenizer events of the XML document of §8 scenario 6:
`<X3ARCH><FS>48000</FS><BLKLEN>20</BLKLEN><CODES>RICE0,RICE1,RICE2,BFP</CODES><T>3,8,20</T></X3ARCH>`. -/
def xmlEvents48k : List (List Char × List Char) :=
  [(['X', '3', 'A', 'R', 'C', 'H'], []),
   (['F', 'S'], ['4', '8', '0', '0', '0']),
   (['B', 'L', 'K', 'L', 'E', 'N'], ['2', '0']),
   (['C', 'O', 'D', 'E', 'S'],
    ['R', 'I', 'C', 'E', '0', ',', 'R', 'I', 'C', 'E', '1', ',',
     'R', 'I', 'C', 'E', '2', ',', 'B', 'F', 'P']),
   (['T'], ['3', ',', '8', ',', '2', '0'])]

/-- `xmlEvents48k` with the required `FS` element removed. -/
def xmlEventsNoFS : List (List Char × List Char) :=
  [(['X', '3', 'A', 'R', 'C', 'H'], []),
   (['B', 'L', 'K', 'L', 'E', 'N'], ['2', '0']),
   (['C', 'O', 'D', 'E', 'S'],
    ['R', 'I', 'C', 'E', '0', ',', 'R', 'I', 'C', 'E', '1', ',',
     'R', 'I', 'C', 'E', '2', ',', 'B', 'F', 'P']),
   (['T'], ['3', ',', '8', ',', '2', '0'])]

/-- `xmlEvents48k` with a non-numeric `FS` text. -/
def xmlEventsBadFS : List (List Char × List Char) :=
  [(['X', '3', 'A', 'R', 'C', 'H'], []),
   (['F', 'S'], ['a', 'b', 'c']),
   (['B', 'L', 'K', 'L', 'E', 'N'], ['2', '0']),
   (['C', 'O', 'D', 'E', 'S'],
    ['R', 'I', 'C', 'E', '0', ',', 'R', 'I', 'C', 'E', '1', ',',
     'R', 'I', 'C', 'E', '2', ',', 'B', 'F', 'P']),
   (['T'], ['3', ',', '8', ',', '2', '0'])]

/-- A byte stream whose leading bytes are not the archive magic. -/
def badMagicStream : List Nat := List.replicate 64 0

/-- A trivial stand-in for the XML parsing pipeline, used where
`read_archive_header` never reaches it. -/
def nullParseXml : List Nat → PResult (Nat × Parameters) := fun _ => .panic

/-- The state of `goodReader` after its frame header and payload have
been read. -/
def goodReaderAfterPayload : X3aReader :=
  ((goodReader.read_frame_header).2.read_frame_payload goodHeader).2

/-- `read_bytes` never touches the frame-error counter. -/
theorem read_bytes_frame_errors (st : X3aReader) (n : Nat) :
    ((st.read_bytes n).2).frame_errors = st.frame_errors := by
  unfold X3aReader.read_bytes
  dsimp only
  split <;> rfl

/-- `read_frame_header` never touches the frame-error counter. -/
theorem read_frame_header_frame_errors (st : X3aReader) :
    ((st.read_frame_header).2).frame_errors = st.frame_errors := by
  unfold X3aReader.read_frame_header
  have hrb := read_bytes_frame_errors st FrameHeader.LENGTH
  rcases h : st.read_bytes FrameHeader.LENGTH with ⟨r, st1⟩
  rw [h] at hrb
  cases r <;> simpa using hrb

/-- When both the remaining-byte budget and the stream cover `n` bytes,
`read_bytes` succeeds and moves exactly `n` stream bytes to the front of
the read buffer. -/
theorem read_bytes_exact (st : X3aReader) (n : Nat)
    (h1 : n ≤ st.remaing_bytes) (h2 : n ≤ st.stream.length) :
    st.read_bytes n =
      (.ok (), { st with
        remaing_bytes := st.remaing_bytes - n
        stream := st.stream.drop n
        read_buf := st.stream.take n ++ st.read_buf.drop n }) := by
  have hmin : min n st.remaing_bytes = n := Nat.min_eq_left h1
  have hlen : (st.stream.take n).length = n := by
    rw [List.length_take]; exact Nat.min_eq_left h2
  simp [X3aReader.read_bytes, hmin, hlen]

/-- C3: the two CRC test vectors of the repository: the 16 header bytes
hash to `0xaddb` and the fixed 150-byte payload hashes to `2073`. -/
theorem claimC3 :
    crc16 (crcHeaderVector.take 16) = 0xaddb ∧ crc16 crcPayloadVector = 2073 :=
  ⟨by decide, by decide⟩

/-- C2: `crc16` is the CRC-16/CCITT-FALSE checksum: it starts from
`0xffff` and folds each byte `d` through `index = d XOR (crc >> 8)`;
`crc = (crc << 8) XOR TABLE[index]`; its fixed 256-entry table is
exactly the table derived from polynomial `0x1021` (so `crc16` agrees
everywhere with the table-derived form `crc16_spec`), and the table's
first entries are `0x0000, 0x1021, 0x2042, 0x3063`. -/
theorem claimC2 :
    CRC_TABLE = CRC_TABLE_derived ∧
    CRC_TABLE.take 4 = [0x0000, 0x1021, 0x2042, 0x3063] ∧
    ∀ data : List Nat, crc16 data = crc16_spec data := by
  have htab : CRC_TABLE = CRC_TABLE_derived := by decide
  refine ⟨htab, by decide, fun data => ?_⟩
  unfold crc16 crc16_spec
  rw [htab]

/-- C9: the Rice sign mapping (0 for magnitude 0, otherwise sign from the
least-significant bit and magnitude `(m + 1) >> 1`) is a bijection
between the magnitudes `0..65535` and the signed 16-bit residual domain
`-32768..32767`, with explicit inverse `riceSignInv`. -/
theorem claimC9 :
    (∀ m : Nat, m < 65536 →
      (-32768 ≤ riceSignMap m ∧ riceSignMap m ≤ 32767) ∧
      riceSignInv (riceSignMap m) = m) ∧
    (∀ v : Int, -32768 ≤ v → v ≤ 32767 →
      riceSignInv v < 65536 ∧ riceSignMap (riceSignInv v) = v) := by
  constructor
  · intro m hm
    unfold riceSignMap riceSignInv
    split_ifs <;> omega
  · intro v h1 h2
    unfold riceSignMap riceSignInv
    split_ifs <;> omega

/-- Witness for C9 at concrete points: magnitude 5 round-trips, and the
residual `-3` round-trips. -/
theorem claimC9_witness :
    riceSignInv (riceSignMap 5) = 5 ∧ riceSignMap (riceSignInv (-3)) = -3 :=
  ⟨(claimC9.1 5 (by decide)).2, (claimC9.2 (-3) (by decide) (by decide)).2⟩

/-- C10: with at most one frame header's worth of bytes remaining, or
with fewer remaining bytes after the header than the announced payload
length, `decode_next_frame` returns `Ok(None)` — no error, frame-error
counter untouched — so a truncated trailing frame ends decoding exactly
like a clean end of stream. -/
theorem claimC10 :
    (∀ f (st : X3aReader), st.remaing_bytes ≤ FrameHeader.LENGTH →
      st.decode_next_frame f = (.ok none, st)) ∧
    (∀ f (st : X3aReader) fh st1, FrameHeader.LENGTH < st.remaing_bytes →
      st.read_frame_header = (.ok fh, st1) →
      st1.remaing_bytes < fh.payload_len →
      st.decode_next_frame f = (.ok none, st1) ∧
        st1.frame_errors = st.frame_errors) := by
  constructor
  · intro f st h
    unfold X3aReader.decode_next_frame
    rw [if_pos h]
  · intro f st fh st1 hgt hhdr hlt
    have herr : st1.frame_errors = st.frame_errors := by
      have h0 := read_frame_header_frame_errors st
      rw [hhdr] at h0; exact h0
    refine ⟨?_, herr⟩
    unfold X3aReader.decode_next_frame
    rw [if_neg (Nat.not_le.mpr hgt), hhdr]
    simp [hlt]

/-- Witness for C10: a 4-byte stream returns `Ok(None)` unchanged, and a
stream whose frame announces more payload than remains returns
`Ok(None)` with the counter untouched. -/
theorem claimC10_witness :
    shortReader.decode_next_frame decoder.decode_frame_spec =
      (.ok none, shortReader) ∧
    oversizeReader.decode_next_frame decoder.decode_frame_spec =
      (.ok none, (oversizeReader.read_frame_header).2) :=
  ⟨claimC10.1 decoder.decode_frame_spec shortReader (by decide),
   (claimC10.2 decoder.decode_frame_spec oversizeReader ⟨1, 24832, 10, 0⟩
      (oversizeReader.read_frame_header).2 (by decide) (by rfl) (by decide)).1⟩

/-- C4: once the remaining-byte budget and the stream cover the announced
payload, `read_frame_payload` reads `payload_len` bytes, computes their
CRC-16 and compares it with the header's stored payload CRC: a mismatch
fails with `FrameHeaderInvalidPayloadCRC` and a match succeeds. -/
theorem claimC4 (st : X3aReader) (header : FrameHeader)
    (h1 : header.payload_len ≤ st.remaing_bytes)
    (h2 : header.payload_len ≤ st.stream.length) :
    (st.read_frame_payload header).1 =
      if crc16 (st.stream.take header.payload_len) = header.payload_crc
      then .ok () else .error .FrameHeaderInvalidPayloadCRC := by
  have hb := read_bytes_exact st header.payload_len h1 h2
  have htake : (st.stream.take header.payload_len ++
      st.read_buf.drop header.payload_len).take header.payload_len =
      st.stream.take header.payload_len :=
    List.take_left' (by rw [List.length_take]; exact Nat.min_eq_left h2)
  unfold X3aReader.read_frame_payload
  rw [hb]
  dsimp only
  rw [htake]
  by_cases h : crc16 (st.stream.take header.payload_len) = header.payload_crc
  · rw [if_neg (not_not_intro h), if_pos h]
  · rw [if_pos h, if_neg h]

/-- Witness for C4: the good 4-byte payload stream against a header with
the matching CRC succeeds. -/
theorem claimC4_witness :
    ((mkReader goodPayload).read_frame_payload goodHeader).1 = .ok () := by
  have h := claimC4 (mkReader goodPayload) goodHeader (by decide) (by decide)
  rw [h, if_pos (by decide)]

/-- C1 counterexample: on the 5-frame archive with one bit flipped in
frame 2's payload, the `x3a_to_wav` loop aborts with
`FrameHeaderInvalidPayloadCRC` after frame 1; only 10 of the 50 samples
are produced and the frame-error counter stays 0 — not the claimed
4 × 10 samples with `frame_errors == 1`. -/
theorem claimC1_counterexample :
    (x3a_to_wav_loop decoder.decode_frame_spec 6 flippedReader 0).1 =
      .error .FrameHeaderInvalidPayloadCRC ∧
    (x3a_to_wav_loop decoder.decode_frame_spec 6 flippedReader 0).2.1 = 10 ∧
    (x3a_to_wav_loop decoder.decode_frame_spec 6 flippedReader 0).2.2.frame_errors = 0 ∧
    ¬ ((x3a_to_wav_loop decoder.decode_frame_spec 6 flippedReader 0).2.1 = 4 * 10 ∧
       (x3a_to_wav_loop decoder.decode_frame_spec 6 flippedReader 0).2.2.frame_errors = 1) := by
  refine ⟨by rfl, by rfl, by rfl, fun hc => ?_⟩
  have h1 := hc.1
  rw [show (x3a_to_wav_loop decoder.decode_frame_spec 6 flippedReader 0).2.1 = 10
    from rfl] at h1
  exact absurd h1 (by decide)

/-- C1 as the code actually behaves: when the frame header parses, the
payload fits and its CRC matches, but the frame-level decode fails, the
driver counts the error and returns `Ok(None)` — which the `x3a_to_wav`
loop treats as end of stream, so subsequent frames are not decoded. -/
theorem claimC1 (f : List Nat → Parameters → Nat → Except X3Error (Option Nat))
    (st : X3aReader) (fh : FrameHeader) (st1 st2 : X3aReader) (e : X3Error)
    (hgt : FrameHeader.LENGTH < st.remaing_bytes)
    (hhdr : st.read_frame_header = (.ok fh, st1))
    (hfit : ¬ st1.remaing_bytes < fh.payload_len)
    (hbuf : ¬ fh.payload_len > X3_READ_BUFFER_SIZE)
    (hpay : st1.read_frame_payload fh = (.ok (), st2))
    (hdec : f (st2.read_buf.take fh.payload_len) st2.spec.params fh.samples =
      .error e) :
    st.decode_next_frame f =
      (.ok none, { st2 with frame_errors := st2.frame_errors + 1 }) ∧
    ∀ fuel total,
      x3a_to_wav_loop f (fuel + 1) st total =
        (.ok (), total, { st2 with frame_errors := st2.frame_errors + 1 }) := by
  have hstep : st.decode_next_frame f =
      (.ok none, { st2 with frame_errors := st2.frame_errors + 1 }) := by
    unfold X3aReader.decode_next_frame
    rw [if_neg (Nat.not_le.mpr hgt), hhdr]
    dsimp only
    rw [if_neg hfit, if_neg hbuf, hpay]
    dsimp only
    rw [hdec]
  refine ⟨hstep, fun fuel total => ?_⟩
  unfold x3a_to_wav_loop
  rw [hstep]

/-- Witness for C1: one well-formed frame and an always-failing
frame-level decoder; `decode_next_frame` yields `Ok(None)` with the
counter bumped to 1. -/
theorem claimC1_witness :
    goodReader.decode_next_frame failingDecoder =
      (.ok none, { goodReaderAfterPayload with
        frame_errors := goodReaderAfterPayload.frame_errors + 1 }) :=
  (claimC1 failingDecoder goodReader goodHeader
    (goodReader.read_frame_header).2 goodReaderAfterPayload
    .EndOfStream (by decide) (by rfl) (by decide) (by decide) (by rfl)
    (by rfl)).1

/-- C5 counterexample: a header announcing a 24832-byte payload (larger
than the 24 KiB read buffer) with only 10 bytes left after it makes
`decode_next_frame` return `Ok(None)` — the remaining-bytes check fires
before the buffer-capacity check, so no `FrameHeaderInvalidPayloadLen`
error is raised. -/
theorem claimC5_counterexample :
    (oversizeReader.read_frame_header).1 = .ok ⟨1, 24832, 10, 0⟩ ∧
    24832 > X3_READ_BUFFER_SIZE ∧
    (oversizeReader.decode_next_frame decoder.decode_frame_spec).1 = .ok none ∧
    (oversizeReader.decode_next_frame decoder.decode_frame_spec).1 ≠
      .error .FrameHeaderInvalidPayloadLen := by
  refine ⟨by rfl, by decide, by rfl, fun hc => ?_⟩
  rw [show (oversizeReader.decode_next_frame decoder.decode_frame_spec).1 =
    .ok none from rfl] at hc
  exact Except.noConfusion hc

/-- C5 as the code actually behaves: an announced payload longer than the
24 KiB read buffer is rejected with `FrameHeaderInvalidPayloadLen` before
any payload byte is read — but only when at least `payload_len` bytes
remain after the header; with fewer remaining bytes the earlier check
returns `Ok(None)` instead. -/
theorem claimC5 (f : List Nat → Parameters → Nat → Except X3Error (Option Nat))
    (st : X3aReader) (fh : FrameHeader) (st1 : X3aReader)
    (hgt : FrameHeader.LENGTH < st.remaing_bytes)
    (hhdr : st.read_frame_header = (.ok fh, st1))
    (hbig : fh.payload_len > X3_READ_BUFFER_SIZE) :
    (fh.payload_len ≤ st1.remaing_bytes →
      st.decode_next_frame f = (.error .FrameHeaderInvalidPayloadLen, st1)) ∧
    (st1.remaing_bytes < fh.payload_len →
      st.decode_next_frame f = (.ok none, st1)) := by
  constructor
  · intro hfit
    unfold X3aReader.decode_next_frame
    rw [if_neg (Nat.not_le.mpr hgt), hhdr]
    dsimp only
    rw [if_neg (Nat.not_lt.mpr hfit), if_pos hbig]
  · intro hlt
    unfold X3aReader.decode_next_frame
    rw [if_neg (Nat.not_le.mpr hgt), hhdr]
    dsimp only
    rw [if_pos hlt]

/-- Witness for C5: with 24832 payload bytes actually present, the
oversize frame is rejected with `FrameHeaderInvalidPayloadLen`. -/
theorem claimC5_witness :
    oversizeFullReader.decode_next_frame decoder.decode_frame_spec =
      (.error .FrameHeaderInvalidPayloadLen,
        (oversizeFullReader.read_frame_header).2) :=
  (claimC5 decoder.decode_frame_spec oversizeFullReader ⟨1, 24832, 10, 0⟩
    (oversizeFullReader.read_frame_header).2 (by decide) (by rfl)
    (by decide)).1 (by decide)

/-- A successful `CODES` token loop yields exactly the Rice ids of the
tokens, in order, with `BFP` skipped. -/
theorem riceCodeIds_ok (ws : List (List Char)) :
    ∀ ids, riceCodeIds ws = .ok ids → ids = ws.filterMap riceTok? := by
  induction ws with
  | nil =>
    intro ids h
    cases h
    rfl
  | cons w ws ih =>
    intro ids h
    simp only [riceCodeIds] at h
    simp only [List.filterMap_cons, riceTok?]
    split_ifs at h ⊢ <;>
      first
        | (cases h)
        | (exact ih ids h)
        | (cases hrec : riceCodeIds ws with
           | error e => rw [hrec] at h; cases h
           | ok ids2 =>
             rw [hrec] at h
             simp only [Except.map] at h
             cases h
             simp [ih ids2 hrec])

/-- C6: the canonical XML metadata document parses to sample rate 48000,
block length 20, Rice codes `[0, 1, 2]` and thresholds `[3, 8, 20]`; and
whenever `parse_xml` succeeds, the retained Rice codes are exactly the
first three Rice tokens of the `CODES` text in order, `BFP` tokens
skipped. -/
theorem claimC6 :
    (parse_xml xmlEvents48k = .ok (48000, testParams) ∧
      testParams.block_len = 20 ∧ testParams.rice_codes = [0, 1, 2] ∧
      testParams.thresholds = [3, 8, 20]) ∧
    ∀ events sr p, parse_xml events = .ok (sr, p) →
      p.rice_codes =
        retainedRice ((eventTexts events ['C', 'O', 'D', 'E', 'S']).headD []) := by
  refine ⟨⟨by rfl, rfl, rfl, rfl⟩, fun events sr p h => ?_⟩
  simp only [parse_xml] at h
  rcases hfs : ((events.filter fun e => e.1 = ['F', 'S']).map Prod.snd) with
    _ | ⟨f0, fs'⟩ <;> rw [hfs] at h
  · simp at h
  rcases hbl : ((events.filter fun e =>
      e.1 = ['B', 'L', 'K', 'L', 'E', 'N']).map Prod.snd) with
    _ | ⟨b0, bl'⟩ <;> rw [hbl] at h
  · simp at h
  rcases hcodes : ((events.filter fun e =>
      e.1 = ['C', 'O', 'D', 'E', 'S']).map Prod.snd) with
    _ | ⟨c0, cs'⟩ <;> rw [hcodes] at h
  · simp at h
  rcases hth : ((events.filter fun e => e.1 = ['T']).map Prod.snd) with
    _ | ⟨t0, ts'⟩ <;> rw [hth] at h
  · simp at h
  dsimp only at h
  rcases hsr : parseNat? f0 with _ | sample_rate <;> rw [hsr] at h
  · simp at h
  rcases hblv : parseNat? b0 with _ | block_len <;> rw [hblv] at h
  · simp at h
  dsimp only at h
  rcases hrc : riceCodeIds (splitOnComma c0) with e | rice_code_ids <;>
    rw [hrc] at h
  · simp at h
  dsimp only at h
  rcases hts : (splitOnComma t0).mapM parseNat? with _ | thresholds <;>
    rw [hts] at h
  · simp at h
  dsimp only at h
  rcases rice_code_ids with _ | ⟨r0, _ | ⟨r1, _ | ⟨r2, rrest⟩⟩⟩ <;>
    rcases thresholds with _ | ⟨u0, _ | ⟨u1, _ | ⟨u2, urest⟩⟩⟩ <;>
    dsimp only at h <;>
    try simp at h
  rcases hnew : Parameters.new block_len Parameters.DEFAULT_BLOCKS_PER_FRAME
      [r0, r1, r2] [u0, u1, u2] with e | params <;> rw [hnew] at h
  · simp at h
  simp only [PResult.ok.injEq, Prod.mk.injEq] at h
  obtain ⟨h1, h2⟩ := h
  subst h2
  simp only [Parameters.new] at hnew
  split_ifs at hnew with hbz hsi
  injection hnew with h3
  have hall := riceCodeIds_ok (splitOnComma c0) _ hrc
  rw [← h3]
  simp only [eventTexts, hcodes, List.headD_cons, retainedRice, ← hall]
  rfl

/-- Witness for C6: the general retained-Rice-codes law applied to the
canonical document. -/
theorem claimC6_witness :
    testParams.rice_codes =
      retainedRice ((eventTexts xmlEvents48k ['C', 'O', 'D', 'E', 'S']).headD []) :=
  claimC6.2 xmlEvents48k 48000 testParams (by rfl)

/-- C7 counterexample: with `FS` missing, or with a non-numeric `FS`
text, `parse_xml` panics (index out of bounds / `unwrap`) instead of
returning `ArchiveHeaderXMLInvalid` — the error the spec's taxonomy calls
`ArchiveHeaderInvalid`. -/
theorem claimC7_counterexample :
    parse_xml xmlEventsNoFS = .panic ∧
    parse_xml xmlEventsNoFS ≠ .err .ArchiveHeaderXMLInvalid ∧
    parse_xml xmlEventsBadFS = .panic ∧
    parse_xml xmlEventsBadFS ≠ .err .ArchiveHeaderXMLInvalid := by
  refine ⟨by rfl, fun hc => ?_, by rfl, fun hc => ?_⟩
  · rw [show parse_xml xmlEventsNoFS = .panic from rfl] at hc
    exact PResult.noConfusion hc
  · rw [show parse_xml xmlEventsBadFS = .panic from rfl] at hc
    exact PResult.noConfusion hc

/-- C7 as the code actually behaves: a missing required element, or a
present `FS` whose text does not parse as a number, makes `parse_xml`
panic rather than return an error. -/
theorem claimC7 (events : List (List Char × List Char)) :
    ((eventTexts events ['F', 'S'] = [] ∨
      eventTexts events ['B', 'L', 'K', 'L', 'E', 'N'] = [] ∨
      eventTexts events ['C', 'O', 'D', 'E', 'S'] = [] ∨
      eventTexts events ['T'] = []) →
      parse_xml events = .panic) ∧
    (∀ f0 rest, eventTexts events ['F', 'S'] = f0 :: rest →
      parseNat? f0 = none → parse_xml events = .panic) := by
  constructor
  · intro hor
    simp only [eventTexts] at hor
    simp only [parse_xml]
    cases hfs : ((events.filter fun e => e.1 = ['F', 'S']).map Prod.snd) with
    | nil => rfl
    | cons f0 fs' =>
      cases hbl : ((events.filter fun e =>
          e.1 = ['B', 'L', 'K', 'L', 'E', 'N']).map Prod.snd) with
      | nil => rfl
      | cons b0 bl' =>
        cases hcodes : ((events.filter fun e =>
            e.1 = ['C', 'O', 'D', 'E', 'S']).map Prod.snd) with
        | nil => rfl
        | cons c0 cs' =>
          cases hth : ((events.filter fun e => e.1 = ['T']).map Prod.snd) with
          | nil => rfl
          | cons t0 ts' =>
            rw [hfs, hbl, hcodes, hth] at hor
            rcases hor with h | h | h | h <;> cases h
  · intro f0 rest hfs hbad
    simp only [eventTexts] at hfs
    simp only [parse_xml]
    rw [hfs]
    cases hbl : ((events.filter fun e =>
        e.1 = ['B', 'L', 'K', 'L', 'E', 'N']).map Prod.snd) with
    | nil => rfl
    | cons b0 bl' =>
      cases hcodes : ((events.filter fun e =>
          e.1 = ['C', 'O', 'D', 'E', 'S']).map Prod.snd) with
      | nil => rfl
      | cons c0 cs' =>
        cases hth : ((events.filter fun e => e.1 = ['T']).map Prod.snd) with
        | nil => rfl
        | cons t0 ts' =>
          dsimp only
          rw [hbad]

/-- Witness for C7: the panic law applied to the document whose `FS` text
is `abc`. -/
theorem claimC7_witness : parse_xml xmlEventsBadFS = .panic :=
  (claimC7 xmlEventsBadFS).2 ['a', 'b', 'c'] [] (by rfl) (by rfl)

/-- C8: a stream long enough to hold the archive magic whose leading
bytes differ from it makes `read_archive_header` fail with the magic
mismatch error (`X3Error::ArchiveHeaderXMLInvalidKey` in the source, the
error the spec's taxonomy calls `ArchiveHeaderInvalidMagic`). -/
theorem claimC8 (parseXml : List Nat → PResult (Nat × Parameters))
    (stream : List Nat)
    (hlen : Archive.ID.length ≤ stream.length)
    (hmag : stream.take Archive.ID.length ≠ Archive.ID) :
    read_archive_header parseXml stream = .err .ArchiveHeaderXMLInvalidKey := by
  unfold read_archive_header
  rw [if_neg (Nat.not_lt.mpr hlen), if_pos hmag]

/-- Witness for C8: an all-zero 64-byte stream is rejected for its
magic. -/
theorem claimC8_witness :
    read_archive_header nullParseXml badMagicStream =
      .err .ArchiveHeaderXMLInvalidKey :=
  claimC8 nullParseXml badMagicStream (by decide) (by decide)

end X3

